import Mathlib

/-
Verification of the CP-Model cardiopulmonary simulation (Python sources)
against its natural-language specification.  Each Python routine named in
a claim is embedded as a Lean definition over ℝ (or ℚ where the routine
is purely rational), translated line by line from the source file cited
in the doc comment.  Machine floats are modelled by exact reals; Python
float division by zero raises `ZeroDivisionError`, so divisions whose
fallibility is at issue (claim C3) are embedded with an Option-valued
checked division.
-/

namespace CPModel

noncomputable section

/-! ## Valve flow (src/heart/valves.py, src/cardiovascular_model.py `valves`) -/

/-- Embedding of `valves(Pin, Pout, R)` (identical in src/heart/valves.py and
src/cardiovascular_model.py): `F = 0` if `Pin <= Pout` else `(Pin - Pout)/R`. -/
def valves (Pin Pout R : ℝ) : ℝ :=
  if Pin ≤ Pout then 0 else (Pin - Pout) / R

/-- Embedding of `HeartModel.valveFlow(Pin, Pout, R)` (src/heartModel.py,
lines 291-295): `(Pin - Pout)/R` if `Pin > Pout` else `0.0`. -/
def valveFlow (Pin Pout R : ℝ) : ℝ :=
  if Pout < Pin then (Pin - Pout) / R else 0

/-- Embedding of the four valve-flow computations of
`HeartModel.compute_derivatives` (src/heartModel.py lines 379-382):
mitral, aortic, tricuspid and pulmonary flows, all through `valveFlow`. -/
def heartValveFlows (LAP LVP Pas RAP RVP Ppa Rmv Rav Rtv Rpv : ℝ) :
    ℝ × ℝ × ℝ × ℝ :=
  (valveFlow LAP LVP Rmv, valveFlow LVP Pas Rav,
   valveFlow RAP RVP Rtv, valveFlow RVP Ppa Rpv)

/-! ## Extrasplanchnic venous compartment
(src/systemicCirculation/extrasplanchnicVenous.py) -/

/-- Embedding of `extrasplanchnicVenous(TBV, Vnet, Ptv, Rtv, Cev, Vuev)`
(src/systemicCirculation/extrasplanchnicVenous.py lines 27-36).
Returns `(Pev, Qev, Vev)` with `Vev = TBV - Vnet`,
`Pev = (Vev - Vuev)/Cev`, `Qev = (Pev - Ptv)/Rtv`. -/
def extrasplanchnicVenous (TBV Vnet Ptv Rtv Cev Vuev : ℝ) : ℝ × ℝ × ℝ :=
  let Vev := TBV - Vnet
  let Pev := (Vev - Vuev) / Cev
  let Qev := (Pev - Ptv) / Rtv
  (Pev, Qev, Vev)

/-! ## Sympathetic effector statics (src/control/effectors/sympathetic.py) -/

/-- Embedding of `peripheralResistanceStatic(f_sp_delayed, f_es_min, G_R)`
(src/control/effectors/sympathetic.py lines 31-42):
`G_R * log(f - f_es_min + 1)` if `f >= f_es_min`, else `0`. -/
def peripheralResistanceStatic (f_sp_delayed f_es_min G_R : ℝ) : ℝ :=
  if f_es_min ≤ f_sp_delayed then G_R * Real.log (f_sp_delayed - f_es_min + 1)
  else 0

/-- Embedding of `venousVolumeStatic(f_sv_delayed, f_es_min, G_V)`
(src/control/effectors/sympathetic.py lines 56-67):
`-G_V * log(f - f_es_min + 1)` if `f >= f_es_min`, else `0`. -/
def venousVolumeStatic (f_sv_delayed f_es_min G_V : ℝ) : ℝ :=
  if f_es_min ≤ f_sv_delayed then -G_V * Real.log (f_sv_delayed - f_es_min + 1)
  else 0

/-- Embedding of `cardiacContractilityStatic(f_sh_delayed, f_es_min, G_E)`
(src/control/effectors/sympathetic.py lines 81-92):
`G_E * log(f - f_es_min + 1)` if `f >= f_es_min`, else `0`. -/
def cardiacContractilityStatic (f_sh_delayed f_es_min G_E : ℝ) : ℝ :=
  if f_es_min ≤ f_sh_delayed then G_E * Real.log (f_sh_delayed - f_es_min + 1)
  else 0

/-! ## Singular divisions (src/systemicCirculation/thoracicVeins.py,
src/heartModel.py)

Python raises `ZeroDivisionError` when a float division has a zero
denominator, so the divisions whose guarding is at issue in claim C3 are
embedded with an Option-valued checked division: `none` is the error case
the source would raise (or the non-finite value numpy would propagate). -/

/-- Checked division: `none` exactly when the denominator is zero. -/
def div? (a b : ℝ) : Option ℝ :=
  if b = 0 then none else some (a / b)

/-- Embedding of the correction term `psi = K_xp / (np.exp(Vtv / K_xv) - 1)`
of `nonlinearPV` (src/systemicCirculation/thoracicVeins.py line 75), with
its division checked. -/
def psiChecked (Vtv K_xp K_xv : ℝ) : Option ℝ :=
  div? K_xp (Real.exp (Vtv / K_xv) - 1)

/-- Embedding of `nonlinearPV(Vtv, D1, K1, Vutv, D2, K2, Vtv_min, K_xp, K_xv)`
(src/systemicCirculation/thoracicVeins.py lines 56-84), with the `psi`
division checked. -/
def nonlinearPVChecked (Vtv D1 K1 Vutv D2 K2 Vtv_min K_xp K_xv : ℝ) :
    Option ℝ :=
  (psiChecked Vtv K_xp K_xv).map fun psi =>
    if Vutv ≤ Vtv then D1 + K1 * (Vtv - Vutv) - psi
    else D2 + K2 * Real.exp (Vtv / Vtv_min) - psi

/-- Embedding of `variableResistance(Vtv, KR, Vtv_max, Rtv_0)`
(src/systemicCirculation/thoracicVeins.py lines 87-106):
`Rtv = KR * (Vtv_max / Vtv)**2 + Rtv_0`, with the division checked. -/
def variableResistanceChecked (Vtv KR Vtv_max Rtv_0 : ℝ) : Option ℝ :=
  (div? Vtv_max Vtv).map fun r => KR * r ^ 2 + Rtv_0

/-- Embedding of the unimodal-ESPVR breakpoint computation
`breakpoint = (E_plus * LVV0 + P_vb) / (E_plus - E_minus)`
(src/heartModel.py lines 152 and 187), with the division checked. -/
def espvrBreakpointChecked (E_plus E_minus LVV0 P_vb : ℝ) : Option ℝ :=
  div? (E_plus * LVV0 + P_vb) (E_plus - E_minus)

/-! ## Heart chamber model (src/heartModel.py) -/

/-- The `ventricle_model` selector of `HeartModel`
(src/heartModel.py line 35). -/
inductive VentricleModel where
  | conventional
  | unimodal

/-- End-systolic pressure branch of `HeartModel.lvPressure` /
`HeartModel.rvPressure` (src/heartModel.py lines 149-158 and 184-193):
linear `Emax·(V - Vu)` for the conventional model, the piecewise unimodal
law with the breakpoint volume otherwise (Lean total division stands in for
the unguarded Python division). -/
def espvrESP (vm : VentricleModel) (Emax Vu E_plus E_minus V0 P_vb V : ℝ) :
    ℝ :=
  match vm with
  | .conventional => Emax * (V - Vu)
  | .unimodal =>
      let bp := (E_plus * V0 + P_vb) / (E_plus - E_minus)
      if V < V0 then 0
      else if V ≤ bp then E_plus * (V - V0)
      else E_minus * V + P_vb

/-- Embedding of `HeartModel.lvPressure(LVV, E, Fout)`
(src/heartModel.py lines 133-166); `HeartModel.rvPressure`
(lines 168-201) is the same body reading the RV parameter fields.
Returns `(max(P, 0), max(Pmax, 0))` with
`Pmax = E·ESP + (1-E)·P0·(exp(ke·V)-1)` and `P = Pmax - (kr·Pmax)·Fout`. -/
def ventriclePressureHM (vm : VentricleModel)
    (Emax Vu E_plus E_minus V0 P_vb P0 ke kr V E Fout : ℝ) : ℝ × ℝ :=
  let ESP := espvrESP vm Emax Vu E_plus E_minus V0 P_vb V
  let EDP := P0 * (Real.exp (ke * V) - 1)
  let Pmax := E * ESP + (1 - E) * EDP
  let R := kr * Pmax
  (max (Pmax - R * Fout) 0, max Pmax 0)

/-- Embedding of `HeartModel.leftAtrium(LAP, Ppv, Fmv)`
(src/heartModel.py lines 254-270): returns `(dLAP, Vla)` with
`dLAP = ((Ppv - LAP)/Rpv - Fmv)/Cla`, `Vla = Cla·LAP + Vu_la`. -/
def leftAtriumHM (Rpv Cla Vu_la LAP Ppv Fmv : ℝ) : ℝ × ℝ :=
  (((Ppv - LAP) / Rpv - Fmv) / Cla, Cla * LAP + Vu_la)

/-- Embedding of `HeartModel.rightAtrium(RAP, Psv, Pev, Ftv)`
(src/heartModel.py lines 272-289): returns `(dRAP, Vra)` with
`dRAP = ((Psv - RAP)/Rsv + (Pev - RAP)/Rev - Ftv)/Cra`. -/
def rightAtriumHM (Rsv Rev Cra Vu_ra RAP Psv Pev Ftv : ℝ) : ℝ × ℝ :=
  (((Psv - RAP) / Rsv + (Pev - RAP) / Rev - Ftv) / Cra, Cra * RAP + Vu_ra)

/-! ## Cardiac activation function (src/heartModel.py `HeartModel.phi`) -/

/-- The double-Hill product computed by `HeartModel.phi`
(src/heartModel.py lines 107-116):
`z = (x/α₁)^n₁/(1+(x/α₁)^n₁) · 1/(1+(x/α₂)^n₂)` (real powers). -/
def hillZ (a1 a2 n1 n2 x : ℝ) : ℝ :=
  let m := (x / a1) ^ n1
  let o := (x / a2) ^ n2
  (m / (1 + m)) * (1 / (1 + o))

/-- The normalizing constant `z_max` of `HeartModel.phi`
(src/heartModel.py lines 119-124): the double-Hill value at
`x_max = sqrt(α₁·α₂)`. -/
def hillZmax (a1 a2 n1 n2 : ℝ) : ℝ :=
  hillZ a1 a2 n1 n2 (Real.sqrt (a1 * a2))

/-- Embedding of `HeartModel.phi(t, alpha, n)`
(src/heartModel.py lines 96-131): phase fraction `x = (t mod Tc)/Tc` with
`Tc = 60/HR` (Python float `%` is `t - Tc·⌊t/Tc⌋`), early return `0` for
non-positive `α`, `En = z/z_max` when `z_max > 0` else `0`, final clamp
`min(max(En, 0), 1)`. -/
def phiHM (HR t a1 a2 n1 n2 : ℝ) : ℝ :=
  let Tc := 60 / HR
  let tm := t - Tc * (⌊t / Tc⌋ : ℝ)
  let x := tm / Tc
  if a1 ≤ 0 ∨ a2 ≤ 0 then 0
  else
    let z := hillZ a1 a2 n1 n2 x
    let zmax := hillZmax a1 a2 n1 n2
    let En := if 0 < zmax then z / zmax else 0
    min (max En 0) 1

/-! ## Respiratory muscle pressure (src/lungMechanicsModel.py `musP`,
src/CP Model/model/lungMechanics/musP.py) -/

/-- Inspiratory branch of the Pmus waveform
(src/lungMechanicsModel.py line 271):
`Pmus = ((-Pmus_min)·b² + Pmus_min·T·b)/(Ti·Te)`. -/
def pmusInsp (minP T Ti Te b : ℝ) : ℝ :=
  ((-minP) * b ^ 2 + minP * T * b) / (Ti * Te)

/-- Expiratory branch of the Pmus waveform
(src/lungMechanicsModel.py lines 274-276). -/
def pmusExp (minP Ti Te tau b : ℝ) : ℝ :=
  minP * (Real.exp (-(b - Ti) / tau) - Real.exp (-Te / tau)) /
    (1 - Real.exp (-Te / tau))

/-- Result record of `musP`: muscle pressure, its rate, time constant. -/
structure MusPResult where
  Pmus : ℝ
  dPmus : ℝ
  tau : ℝ

/-- Embedding of `LungMechanicsModel.musP(t, dt, Pmus_prev)`
(src/lungMechanicsModel.py lines 246-281), equivalently of
`musP(minP, b, Ti, Te, dt, Pmus_prev)` in
src/CP Model/model/lungMechanics/musP.py with `dt`, `Pmus_prev` provided:
`T = Ti + Te`, `tau = Te/5`, parabolic branch for `b <= Ti`, exponential
branch otherwise, and `dPmus = (Pmus - Pmus_prev)/dt`. -/
def musP (minP b Ti Te dt Pmus_prev : ℝ) : MusPResult :=
  let T := Ti + Te
  let tau := Te / 5
  let Pmus := if b ≤ Ti then pmusInsp minP T Ti Te b
    else pmusExp minP Ti Te tau b
  { Pmus := Pmus, dPmus := (Pmus - Pmus_prev) / dt, tau := tau }

/-! ## The Ursino-style driver (src/cardiovascular_model.py)

`CardiovascularParameters` and `CardiovascularState` are plain records of
floats in the source; the per-step helper functions below are the
module-level functions of src/cardiovascular_model.py, embedded line by
line.  `cvStep` is the body of the integration loop of
`simulate_cardiovascular_system` (lines 359-443): it reads the row of
values at index `i` and produces the row at index `i+1`. -/

/-- Parameter record mirroring `CardiovascularParameters`
(src/cardiovascular_model.py lines 11-64). -/
structure CVParams where
  Csa : ℝ
  Clbp : ℝ
  Cubp : ℝ
  Clbv : ℝ
  Cubv : ℝ
  Cpa : ℝ
  Cpp : ℝ
  Cpv : ℝ
  Rsa : ℝ
  Rlbp : ℝ
  Rubp : ℝ
  Rlbv : ℝ
  Rubv : ℝ
  Rpa : ℝ
  Rpp : ℝ
  Rpv : ℝ
  Vusa : ℝ
  Vulbp : ℝ
  Vuubp : ℝ
  Vulbv : ℝ
  Vuubv : ℝ
  Vupa : ℝ
  Vupp : ℝ
  Vupv : ℝ
  TBV : ℝ
  Cla : ℝ
  Vula : ℝ
  Rla : ℝ
  Vulv : ℝ
  Cra : ℝ
  Vura : ℝ
  Rra : ℝ
  Vurv : ℝ
  Raov : ℝ
  Rmv : ℝ
  Rtv : ℝ
  Rpulv : ℝ

/-- Default parameter values of `CardiovascularParameters.__init__`
(src/cardiovascular_model.py lines 14-64), as exact rationals. -/
def cvParamsDefault : CVParams :=
  { Csa := 0.28, Clbp := 2.05, Cubp := 1.67, Clbv := 61.11, Cubv := 50.0,
    Cpa := 0.76, Cpp := 5.80, Cpv := 25.37,
    Rsa := 0.06, Rlbp := 1.307, Rubp := 1.407, Rlbv := 0.038, Rubv := 0.016,
    Rpa := 0.023, Rpp := 0.0894, Rpv := 0.0056,
    Vusa := 0, Vulbp := 274.4, Vuubp := 336.6, Vulbv := 1121, Vuubv := 1375,
    Vupa := 0, Vupp := 223, Vupv := 120,
    TBV := 5300,
    Cla := 19.23, Vula := 25, Rla := 2.5e-3, Vulv := 16.77,
    Cra := 31.25, Vura := 25, Rra := 2.5e-3, Vurv := 40.8,
    Raov := 0.0025, Rmv := 0, Rtv := 0, Rpulv := 0.0025 }

/-- State record mirroring `CardiovascularState`
(src/cardiovascular_model.py lines 67-92): the 17 state-carried
quantities copied into index 0 of the result arrays. -/
structure CVState where
  Ppv : ℝ
  Ppp : ℝ
  Ppa : ℝ
  Psa : ℝ
  Plbp : ℝ
  Plbv : ℝ
  Pubv : ℝ
  LAP : ℝ
  LVP : ℝ
  RAP : ℝ
  RVP : ℝ
  LVV : ℝ
  RVV : ℝ
  Qmv : ℝ
  Qaov : ℝ
  Qpulv : ℝ
  Qtv : ℝ

/-- Default state values of `CardiovascularState.__init__`
(src/cardiovascular_model.py lines 70-92). -/
def cvStateDefault : CVState :=
  { Ppv := 2.0, Ppp := 2.0, Ppa := 5.0, Psa := 60.0, Plbp := 10.0,
    Plbv := 10.0, Pubv := 9.0, LAP := 6.0, LVP := 5.0, RAP := 5.0, RVP := 5.0,
    LVV := 120.0, RVV := 120.0, Qmv := 1.0, Qaov := 1.0, Qpulv := 1.0,
    Qtv := 1.0 }

/-- One row of the `results` arrays of `simulate_cardiovascular_system` at a
given time index: the 17 state-carried keys plus the derived `Vu` and
`Vlbv` arrays. -/
structure CVRow where
  Ppv : ℝ
  Ppp : ℝ
  Ppa : ℝ
  Psa : ℝ
  Plbp : ℝ
  Plbv : ℝ
  Pubv : ℝ
  LAP : ℝ
  LVP : ℝ
  RAP : ℝ
  RVP : ℝ
  LVV : ℝ
  RVV : ℝ
  Qmv : ℝ
  Qaov : ℝ
  Qpulv : ℝ
  Qtv : ℝ
  Vu : ℝ
  Vlbv : ℝ

/-- Row at index 0: the 17 keys are copied from the initial state
(src/cardiovascular_model.py lines 340-356); `Vu` and `Vlbv` keep their
`np.zeros` initialisation. -/
def initRow (s : CVState) : CVRow :=
  { Ppv := s.Ppv, Ppp := s.Ppp, Ppa := s.Ppa, Psa := s.Psa, Plbp := s.Plbp,
    Plbv := s.Plbv, Pubv := s.Pubv, LAP := s.LAP, LVP := s.LVP, RAP := s.RAP,
    RVP := s.RVP, LVV := s.LVV, RVV := s.RVV, Qmv := s.Qmv, Qaov := s.Qaov,
    Qpulv := s.Qpulv, Qtv := s.Qtv, Vu := 0, Vlbv := 0 }

/-- Embedding of `left_atrium` (src/cardiovascular_model.py lines 197-201):
`dPla = ((Ppv - LAP)/Rpv - Fmv)/Cla`. -/
def left_atrium (Ppv LAP Rpv Fmv Cla : ℝ) : ℝ :=
  ((Ppv - LAP) / Rpv - Fmv) / Cla

/-- Embedding of `right_atrium` (src/cardiovascular_model.py lines 204-209):
`dPra = ((Plbv - RAP)/Rlbv + (Pubv - RAP)/Rubv - Ftv)/Cra`. -/
def right_atrium (Plbv Pubv RAP Rlbv Rubv Ftv Cra : ℝ) : ℝ :=
  ((Plbv - RAP) / Rlbv + (Pubv - RAP) / Rubv - Ftv) / Cra

/-- Embedding of `ventricle` (src/cardiovascular_model.py lines 159-194):
`V = Vold + (Fin - Fout)*h`, `P = E*Emax*(V-Vu) + (1-E)*Emin*(V-Vu)`. -/
def ventricle (Emax Emin E Vold Vu Fin Fout h : ℝ) : ℝ × ℝ :=
  let V := Vold + (Fin - Fout) * h
  let ESP := Emax * (V - Vu)
  let EDP := Emin * (V - Vu)
  (V, E * ESP + (1 - E) * EDP)

/-- Embedding of `systemic_artery_RC` (src/cardiovascular_model.py
lines 212-216). -/
def systemic_artery_RC (Fin Psa Psp Rsa Csa : ℝ) : ℝ :=
  (Fin - (Psa - Psp) / Rsa) / Csa

/-- Embedding of `systemic_peripheral_RC` (src/cardiovascular_model.py
lines 219-228). -/
def systemic_peripheral_RC (Psa Plbp Plbv Pubv Rsa Rlbp Rubp Clbp Cubp : ℝ) :
    ℝ :=
  ((Psa - Plbp) / Rsa - ((Plbp - Plbv) / Rlbp + (Plbp - Pubv) / Rubp)) /
    (Clbp + Cubp)

/-- Embedding of `extrasplanchnic_venous` (src/cardiovascular_model.py
lines 231-238): the pressure ODE used for the upper-body venous bed. -/
def extrasplanchnic_venous (Psp Pev Pra dVuev Rep Rev Cev : ℝ) : ℝ :=
  ((Psp - Pev) / Rep - ((Pev - Pra) / Rev + dVuev)) / Cev

/-- Embedding of `pulmonary_artery_RC` (src/cardiovascular_model.py
lines 241-246). -/
def pulmonary_artery_RC (Fin Ppa Ppp Rpa Cpa : ℝ) : ℝ :=
  (Fin - (Ppa - Ppp) / Rpa) / Cpa

/-- Embedding of `pulmonary_peripheral_RC` (src/cardiovascular_model.py
lines 249-255). -/
def pulmonary_peripheral_RC (Ppa Ppp Ppv Rpa Rpp Cpp : ℝ) : ℝ :=
  ((Ppa - Ppp) / Rpa - (Ppp - Ppv) / Rpp) / Cpp

/-- Embedding of `pulmonary_veins` (src/cardiovascular_model.py
lines 258-264). -/
def pulmonary_veins (Ppp Ppv Pla Rpp Rpv Cpv : ℝ) : ℝ :=
  ((Ppp - Ppv) / Rpp - (Ppv - Pla) / Rpv) / Cpv

/-- Embedding of `splanchnic_venous` (src/cardiovascular_model.py
lines 267-270): `Psv = (TBV - Vsv)/Csv`, the volume-conservation closure. -/
def splanchnic_venous (TBV Vsv Csv : ℝ) : ℝ :=
  (TBV - Vsv) / Csv

/-- Total unstressed volume written into `results['Vu'][i+1]`
(src/cardiovascular_model.py lines 415-417). -/
def totalVu (p : CVParams) : ℝ :=
  p.Vusa + p.Vulbp + p.Vuubp + p.Vulbv + p.Vuubv + p.Vura + p.Vupa + p.Vupp +
    p.Vupv + p.Vula

/-- Body of the integration loop of `simulate_cardiovascular_system`
(src/cardiovascular_model.py lines 359-443).  `Ei` is the activation sample
`E[i]`; the input `s` is the row of values at index `i` and the returned
record is the row at index `i+1`. -/
def cvStep (p : CVParams) (Emaxlv Eminlv Emaxrv Eminrv dt Ei : ℝ)
    (s : CVRow) : CVRow :=
  let LAP1 := s.LAP + left_atrium s.Ppv s.LAP p.Rpv s.Qmv p.Cla * dt
  let RAP1 := s.RAP +
    right_atrium s.Plbv s.Pubv s.RAP p.Rlbv p.Rubv s.Qtv p.Cra * dt
  let lv := ventricle Emaxlv Eminlv Ei s.LVV p.Vulv s.Qmv s.Qaov dt
  let rv := ventricle Emaxrv Eminrv Ei s.RVV p.Vurv s.Qtv s.Qpulv dt
  let Psa1 := s.Psa + systemic_artery_RC s.Qaov s.Psa s.Plbp p.Rsa p.Csa * dt
  let Plbp1 := s.Plbp +
    systemic_peripheral_RC s.Psa s.Plbp s.Plbv s.Pubv p.Rsa p.Rlbp p.Rubp
      p.Clbp p.Cubp * dt
  let Pubv1 := s.Pubv +
    extrasplanchnic_venous s.Plbp s.Pubv s.RAP 0 p.Rubp p.Rubv p.Cubv * dt
  let Ppa1 := s.Ppa + pulmonary_artery_RC s.Qpulv s.Ppa s.Ppp p.Rpa p.Cpa * dt
  let Ppp1 := s.Ppp +
    pulmonary_peripheral_RC s.Ppa s.Ppp s.Ppv p.Rpa p.Rpp p.Cpp * dt
  let Ppv1 := s.Ppv + pulmonary_veins s.Ppp s.Ppv s.LAP p.Rpp p.Rpv p.Cpv * dt
  let Vu1 := totalVu p
  let Vlbv1 := p.Csa * Psa1 + (p.Clbp + p.Cubp) * Plbp1 + p.Cubv * Pubv1 +
    p.Cra * RAP1 + rv.1 + p.Cpa * Ppa1 + p.Cpp * Ppp1 + p.Cpv * Ppv1 +
    p.Cla * LAP1 + lv.1 + Vu1
  let Plbv1 := splanchnic_venous p.TBV Vlbv1 p.Clbv
  { Ppv := Ppv1, Ppp := Ppp1, Ppa := Ppa1, Psa := Psa1, Plbp := Plbp1,
    Plbv := Plbv1, Pubv := Pubv1, LAP := LAP1, LVP := lv.2, RAP := RAP1,
    RVP := rv.2, LVV := lv.1, RVV := rv.1,
    Qmv := valves LAP1 lv.2 (p.Rla + p.Rmv),
    Qaov := valves lv.2 Psa1 p.Raov,
    Qtv := valves RAP1 rv.2 (p.Rra + p.Rtv),
    Qpulv := valves rv.2 Ppa1 p.Rpulv,
    Vu := Vu1, Vlbv := Vlbv1 }

/-- Trajectory of rows: row `0` is the initial row, row `i+1` is produced by
the loop body from row `i` with activation sample `E i`. -/
def cvTraj (p : CVParams) (Emaxlv Eminlv Emaxrv Eminrv dt : ℝ) (E : ℕ → ℝ)
    (s0 : CVRow) : ℕ → CVRow
  | 0 => s0
  | i + 1 => cvStep p Emaxlv Eminlv Emaxrv Eminrv dt (E i)
      (cvTraj p Emaxlv Eminlv Emaxrv Eminrv dt E s0 i)

/-- Sum of all compartment volumes of the driver at one row: the stressed
volumes `C·P` of every vascular compartment and the atria, the two
ventricular volumes, the total unstressed volume, and the lower-body venous
stressed volume `Clbv·Plbv` of the conservation compartment. -/
def cvTotalVolume (p : CVParams) (s : CVRow) : ℝ :=
  p.Csa * s.Psa + (p.Clbp + p.Cubp) * s.Plbp + p.Cubv * s.Pubv +
    p.Cra * s.RAP + s.RVV + p.Cpa * s.Ppa + p.Cpp * s.Ppp + p.Cpv * s.Ppv +
    p.Cla * s.LAP + s.LVV + totalVu p + p.Clbv * s.Plbv

/-- One sample of the double-Hill array `z` of `phi1`
(src/cardiovascular_model.py lines 115-128), at time `t` (numpy `mod` is
`t - Tc·⌊t/Tc⌋`; real powers embed the float `**`). -/
def phi1z (HR a1 a2 n1 n2 t : ℝ) : ℝ :=
  let Tc := 60 / HR
  let tm := t - Tc * (⌊t / Tc⌋ : ℝ)
  let x := tm / Tc
  let m := (x / a1) ^ n1
  let o := (x / a2) ^ n2
  (m / (1 + m)) * (1 / (1 + o))

/-- Embedding of `phi1(t, HR, alpha, n)` evaluated at grid index `i`
(src/cardiovascular_model.py lines 95-132): `En = z / np.max(z)` with the
maximum taken over the whole sampled grid.  `np.max` over the non-empty
grid equals the fold of `max` with floor `0`, the Hill samples being
non-negative. -/
def phi1E (HR a1 a2 n1 n2 dt : ℝ) (nSteps i : ℕ) : ℝ :=
  phi1z HR a1 a2 n1 n2 (i * dt) /
    (((List.range nSteps).map fun j =>
      phi1z HR a1 a2 n1 n2 (j * dt)).foldr max 0)

/-- Number of samples of `np.arange(0, duration, dt)`
(src/cardiovascular_model.py lines 304-305): `⌈duration/dt⌉` for positive
arguments. -/
def arangeLen (duration dt : ℝ) : ℕ :=
  (⌈duration / dt⌉).toNat

/-- The `results` dictionary of `simulate_cardiovascular_system`
(src/cardiovascular_model.py lines 316-337): twenty time series. -/
structure CVResults where
  time : List ℝ
  LAP : List ℝ
  RAP : List ℝ
  LVV : List ℝ
  LVP : List ℝ
  RVV : List ℝ
  RVP : List ℝ
  Psa : List ℝ
  Plbp : List ℝ
  Plbv : List ℝ
  Pubv : List ℝ
  Ppa : List ℝ
  Ppp : List ℝ
  Ppv : List ℝ
  Qmv : List ℝ
  Qaov : List ℝ
  Qtv : List ℝ
  Qpulv : List ℝ
  Vu : List ℝ
  Vlbv : List ℝ

/-- Embedding of `simulate_cardiovascular_system(params, state, HR,
duration, dt, Emaxlv, Eminlv, Emaxrv, Eminrv)`
(src/cardiovascular_model.py lines 273-445): time grid
`np.arange(0, duration, dt)`, activation array `E = phi1(t, HR, [0.103,
0.408], [1.9, 21.9])`, index-0 row copied from the initial state, rows
`i+1` produced by the loop body `cvStep` from row `i`. -/
def simulate_cardiovascular_system (p : CVParams) (s : CVState)
    (HR duration dt Emaxlv Eminlv Emaxrv Eminrv : ℝ) : CVResults :=
  let n := arangeLen duration dt
  let E := fun i => phi1E HR 0.103 0.408 1.9 21.9 dt n i
  let tr := cvTraj p Emaxlv Eminlv Emaxrv Eminrv dt E (initRow s)
  { time := (List.range n).map fun i : ℕ => (i : ℝ) * dt,
    LAP := (List.range n).map fun i => (tr i).LAP,
    RAP := (List.range n).map fun i => (tr i).RAP,
    LVV := (List.range n).map fun i => (tr i).LVV,
    LVP := (List.range n).map fun i => (tr i).LVP,
    RVV := (List.range n).map fun i => (tr i).RVV,
    RVP := (List.range n).map fun i => (tr i).RVP,
    Psa := (List.range n).map fun i => (tr i).Psa,
    Plbp := (List.range n).map fun i => (tr i).Plbp,
    Plbv := (List.range n).map fun i => (tr i).Plbv,
    Pubv := (List.range n).map fun i => (tr i).Pubv,
    Ppa := (List.range n).map fun i => (tr i).Ppa,
    Ppp := (List.range n).map fun i => (tr i).Ppp,
    Ppv := (List.range n).map fun i => (tr i).Ppv,
    Qmv := (List.range n).map fun i => (tr i).Qmv,
    Qaov := (List.range n).map fun i => (tr i).Qaov,
    Qtv := (List.range n).map fun i => (tr i).Qtv,
    Qpulv := (List.range n).map fun i => (tr i).Qpulv,
    Vu := (List.range n).map fun i => (tr i).Vu,
    Vlbv := (List.range n).map fun i => (tr i).Vlbv }

/-- Object-passing view of one call to `simulate_cardiovascular_system`:
Python passes `params` and `state` by reference; the function body only
reads their attributes (there is no assignment to either object in
src/cardiovascular_model.py lines 273-445, every write targets the local
`results` dict), so the post-call objects are the records passed in,
unchanged.  Returns `(results, params_after, state_after)`. -/
def simulate_call (p : CVParams) (s : CVState)
    (HR duration dt Emaxlv Eminlv Emaxrv Eminrv : ℝ) :
    CVResults × CVParams × CVState :=
  (simulate_cardiovascular_system p s HR duration dt Emaxlv Eminlv Emaxrv
    Eminrv, p, s)

end

/-! ## Delay line (src/control/effectors/sympathetic.py `applyDelay`)

The buffer holds Python floats, which are exact rationals, so this part of
the embedding is over ℚ and fully executable. -/

/-- Python `int(x)` on a float/rational: truncation toward zero. -/
def pyInt (q : ℚ) : ℤ :=
  if 0 ≤ q then ⌊q⌋ else -⌊-q⌋

/-- Embedding of `applyDelay(current_value, delay_buffer, dt, D)`
(src/control/effectors/sympathetic.py lines 4-28) with the Python list
mutation made explicit: the current value is appended, then if the buffer
now holds more than `delay_steps` samples the oldest is popped and
returned, otherwise the earliest available sample is returned (buffer
kept).  Returns `(delayed_value, updated_buffer)`;
`delay_steps = int(D / dt)` is taken as a natural number argument. -/
def applyDelay (current_value : ℚ) (delay_buffer : List ℚ)
    (delay_steps : ℕ) : ℚ × List ℚ :=
  if delay_steps < (delay_buffer ++ [current_value]).length then
    ((delay_buffer ++ [current_value]).headD 0,
     (delay_buffer ++ [current_value]).tail)
  else
    ((delay_buffer ++ [current_value]).headD 0,
     delay_buffer ++ [current_value])

/-- Driving `applyDelay` with the sample stream `f`, starting from the
empty buffer: `runDelay f N k` is the (value, buffer) pair produced by the
call that appends sample `f k`. -/
def runDelay (f : ℕ → ℚ) (N : ℕ) : ℕ → ℚ × List ℚ
  | 0 => applyDelay (f 0) [] N
  | k + 1 => applyDelay (f (k + 1)) (runDelay f N k).2 N

end CPModel

namespace CPModel

/-! ## Claim C2: valve diode law and continuity at the crossing -/

/-- C2: for every `Pin`, `Pout` and `R > 0`, the valve flow is `0` when
`Pin <= Pout` and `(Pin - Pout)/R` when `Pin > Pout`; `HeartModel.valveFlow`
agrees with `valves`; the four valve flows of `compute_derivatives` are this
one law applied to the four pressure pairs; and the flow is continuous in
`(Pin, Pout)` at any crossing point `(a, a)`. -/
theorem C2_valve_diode (Pin Pout R a : ℝ)
    (LAP LVP Pas RAP RVP Ppa Rmv Rav Rtv Rpv : ℝ) (hR : 0 < R) :
    (Pin ≤ Pout → valves Pin Pout R = 0) ∧
    (Pout < Pin → valves Pin Pout R = (Pin - Pout) / R) ∧
    valveFlow Pin Pout R = valves Pin Pout R ∧
    heartValveFlows LAP LVP Pas RAP RVP Ppa Rmv Rav Rtv Rpv =
      (valves LAP LVP Rmv, valves LVP Pas Rav,
       valves RAP RVP Rtv, valves RVP Ppa Rpv) ∧
    ContinuousAt (fun q : ℝ × ℝ => valves q.1 q.2 R) (a, a) := by
  have key : ∀ x y : ℝ, valves x y R = max ((x - y) / R) 0 := by
    intro x y
    unfold valves
    rcases le_or_lt x y with h | h
    · rw [if_pos h, max_eq_right]
      exact div_nonpos_of_nonpos_of_nonneg (by linarith) hR.le
    · rw [if_neg (not_le.mpr h), max_eq_left]
      exact le_of_lt (div_pos (by linarith) hR)
  refine ⟨?_, ?_, ?_, ?_, ?_⟩
  · intro h; unfold valves; exact if_pos h
  · intro h; unfold valves; rw [if_neg (not_le.mpr h)]
  · unfold valveFlow valves
    rcases le_or_lt Pin Pout with h | h
    · rw [if_neg (not_lt.mpr h), if_pos h]
    · rw [if_pos h, if_neg (not_le.mpr h)]
  · unfold heartValveFlows
    have eq1 : ∀ x y r : ℝ, valveFlow x y r = valves x y r := by
      intro x y r
      unfold valveFlow valves
      rcases le_or_lt x y with h | h
      · rw [if_neg (not_lt.mpr h), if_pos h]
      · rw [if_pos h, if_neg (not_le.mpr h)]
    rw [eq1, eq1, eq1, eq1]
  · have : (fun q : ℝ × ℝ => valves q.1 q.2 R) =
        fun q : ℝ × ℝ => max ((q.1 - q.2) / R) 0 := by
      funext q; exact key q.1 q.2
    rw [this]
    exact (((continuous_fst.sub continuous_snd).div_const R).max
      continuous_const).continuousAt

/-- Witness for C2 at `Pin = 1`, `Pout = 0`, `R = 1`, crossing point `(0,0)`. -/
theorem C2_valve_diode_witness :
    ((1:ℝ) ≤ 0 → valves 1 0 1 = 0) ∧
    ((0:ℝ) < 1 → valves 1 0 1 = (1 - 0) / 1) ∧
    valveFlow 1 0 1 = valves 1 0 1 ∧
    heartValveFlows 1 2 3 4 5 6 7 8 9 10 =
      (valves 1 2 7, valves 2 3 8, valves 4 5 9, valves 5 6 10) ∧
    ContinuousAt (fun q : ℝ × ℝ => valves q.1 q.2 1) (0, 0) :=
  C2_valve_diode 1 0 1 0 1 2 3 4 5 6 7 8 9 10 (by norm_num)

/-! ## Claim C8: monotone sympathetic effector statics -/

/-- C8: with non-negative gain `G` and threshold `f_es_min`, the static
responses `peripheralResistanceStatic` and `cardiacContractilityStatic` are
monotonically non-decreasing in the delayed firing rate on `[f_es_min, ∞)`,
`venousVolumeStatic` is monotonically non-increasing there, and all three
return `0` strictly below the threshold. -/
theorem C8_effector_monotone (f_es_min G x y f : ℝ) (hG : 0 ≤ G)
    (hx : f_es_min ≤ x) (hxy : x ≤ y) (hf : f < f_es_min) :
    peripheralResistanceStatic x f_es_min G ≤
      peripheralResistanceStatic y f_es_min G ∧
    cardiacContractilityStatic x f_es_min G ≤
      cardiacContractilityStatic y f_es_min G ∧
    venousVolumeStatic y f_es_min G ≤ venousVolumeStatic x f_es_min G ∧
    peripheralResistanceStatic f f_es_min G = 0 ∧
    cardiacContractilityStatic f f_es_min G = 0 ∧
    venousVolumeStatic f f_es_min G = 0 := by
  have hy : f_es_min ≤ y := le_trans hx hxy
  have hlog : Real.log (x - f_es_min + 1) ≤ Real.log (y - f_es_min + 1) := by
    apply Real.log_le_log (by linarith)
    linarith
  have hnot : ¬ f_es_min ≤ f := not_le.mpr hf
  refine ⟨?_, ?_, ?_, ?_, ?_, ?_⟩
  · unfold peripheralResistanceStatic
    rw [if_pos hx, if_pos hy]
    exact mul_le_mul_of_nonneg_left hlog hG
  · unfold cardiacContractilityStatic
    rw [if_pos hx, if_pos hy]
    exact mul_le_mul_of_nonneg_left hlog hG
  · unfold venousVolumeStatic
    rw [if_pos hx, if_pos hy]
    have := mul_le_mul_of_nonneg_left hlog hG
    linarith
  · unfold peripheralResistanceStatic; exact if_neg hnot
  · unfold cardiacContractilityStatic; exact if_neg hnot
  · unfold venousVolumeStatic; exact if_neg hnot

/-! ## Claim C1: total-blood-volume conservation -/

/-- C1: the extrasplanchnic venous routine returns exactly
`Vev = TBV - Vnet` (it is algebraic, not integrated), and in the driver
loop the sum of all compartment volumes — with the conservation compartment
volume recovered as `Clbv · Plbv` from the algebraically computed
`Plbv = (TBV - Vlbv)/Clbv` — equals `TBV` at every computed step of a run. -/
theorem C1_volume_conservation (TBV Vnet Ptv Rtv Cev Vuev : ℝ)
    (p : CVParams) (e1 e2 e3 e4 dt : ℝ) (E : ℕ → ℝ) (s0 : CVRow) (i : ℕ)
    (hC : p.Clbv ≠ 0) :
    (extrasplanchnicVenous TBV Vnet Ptv Rtv Cev Vuev).2.2 = TBV - Vnet ∧
    cvTotalVolume p (cvTraj p e1 e2 e3 e4 dt E s0 (i + 1)) = p.TBV := by
  refine ⟨rfl, ?_⟩
  have key : ∀ (s : CVRow) (Ei : ℝ),
      cvTotalVolume p (cvStep p e1 e2 e3 e4 dt Ei s) = p.TBV := by
    intro s Ei
    dsimp only [cvStep, cvTotalVolume, splanchnic_venous, totalVu]
    field_simp
  simpa only [cvTraj] using key (cvTraj p e1 e2 e3 e4 dt E s0 i) (E i)

/-- Witness for C1 at the default parameters and state, first step. -/
theorem C1_volume_conservation_witness :
    (extrasplanchnicVenous 5300 4000 3 1 25 1200).2.2 = 5300 - 4000 ∧
    cvTotalVolume cvParamsDefault
      (cvTraj cvParamsDefault 2.7 0.06 1.6 0.08 0.0001 (fun _ => 0)
        (initRow cvStateDefault) (0 + 1)) = cvParamsDefault.TBV :=
  C1_volume_conservation 5300 4000 3 1 25 1200 cvParamsDefault 2.7 0.06 1.6
    0.08 0.0001 (fun _ => 0) (initRow cvStateDefault) 0
    (by norm_num [cvParamsDefault])

/-! ## Claim C3: the singular divisions are not guarded -/

/-- C3 counterexample: at thoracic-vein volume `Vtv = 0` the divisor of the
variable-resistance law and the divisor of the `psi` correction term are
exactly zero (no `max(x, epsilon)` floor is applied anywhere), and the
unimodal-ESPVR breakpoint division has a zero denominator whenever
`E_plus = E_minus`, so the claimed guards do not exist in the code. -/
theorem C3_guard_counterexample :
    variableResistanceChecked 0 1 100 0 = none ∧
    psiChecked 0 1 1 = none ∧
    nonlinearPVChecked 0 1 1 100 1 1 1 1 1 = none ∧
    espvrBreakpointChecked 1 1 10 1 = none := by
  refine ⟨?_, ?_, ?_, ?_⟩
  · simp [variableResistanceChecked, div?]
  · simp [psiChecked, div?]
  · simp [nonlinearPVChecked, psiChecked, div?]
  · simp [espvrBreakpointChecked, div?]

/-- C3 amended: none of the singular divisions is guarded by a floor.  The
thoracic-vein variable resistance divides by the raw volume (zero
denominator at `Vtv = 0`), the correction term divides by
`exp(Vtv/K_xv) - 1` (zero denominator at `Vtv = 0`), and the unimodal
breakpoint divides by `E_plus - E_minus` (zero denominator when
`E_plus = E_minus`); away from those singular inputs the unguarded
formulas are computed as written. -/
theorem C3_divisions_unguarded
    (Vtv KR Vtv_max Rtv_0 K_xp K_xv E_plus E_minus LVV0 P_vb : ℝ)
    (hV : Vtv ≠ 0) (hK : K_xv ≠ 0) (hE : E_plus - E_minus ≠ 0) :
    variableResistanceChecked 0 KR Vtv_max Rtv_0 = none ∧
    psiChecked 0 K_xp K_xv = none ∧
    espvrBreakpointChecked E_plus E_plus LVV0 P_vb = none ∧
    variableResistanceChecked Vtv KR Vtv_max Rtv_0 =
      some (KR * (Vtv_max / Vtv) ^ 2 + Rtv_0) ∧
    psiChecked Vtv K_xp K_xv = some (K_xp / (Real.exp (Vtv / K_xv) - 1)) ∧
    espvrBreakpointChecked E_plus E_minus LVV0 P_vb =
      some ((E_plus * LVV0 + P_vb) / (E_plus - E_minus)) := by
  have hq : Vtv / K_xv ≠ 0 := div_ne_zero hV hK
  have hexp : Real.exp (Vtv / K_xv) - 1 ≠ 0 := by
    rw [sub_ne_zero]
    intro h
    rw [show (1:ℝ) = Real.exp 0 from (Real.exp_zero).symm] at h
    exact hq (Real.exp_injective h)
  refine ⟨?_, ?_, ?_, ?_, ?_, ?_⟩
  · simp [variableResistanceChecked, div?]
  · simp [psiChecked, div?]
  · simp [espvrBreakpointChecked, div?]
  · simp [variableResistanceChecked, div?, hV]
  · simp [psiChecked, div?, hexp]
  · simp [espvrBreakpointChecked, div?, hE]

/-- Witness for the amended C3 at `Vtv = 2`, `K_xv = 3`,
`E_plus = 2`, `E_minus = 1`. -/
theorem C3_divisions_unguarded_witness :
    variableResistanceChecked 0 1 5 7 = none ∧
    psiChecked 0 11 3 = none ∧
    espvrBreakpointChecked 2 2 10 1 = none ∧
    variableResistanceChecked 2 1 5 7 = some (1 * ((5:ℝ) / 2) ^ 2 + 7) ∧
    psiChecked 2 11 3 = some (11 / (Real.exp ((2:ℝ) / 3) - 1)) ∧
    espvrBreakpointChecked 2 1 10 1 = some ((2 * 10 + 1) / ((2:ℝ) - 1)) :=
  C3_divisions_unguarded 2 1 5 7 11 3 2 1 10 1 (by norm_num) (by norm_num)
    (by norm_num)

/-! ## Claim C4: pressure clamping -/

/-- C4 counterexample: the atrial pressures are not clamped at zero — one
explicit-Euler update of the left atrial pressure ODE from the
non-negative pressure `LAP = 0` (with `Ppv = -10`, a legitimate
sub-atmospheric vascular pressure) produces a negative left atrial
pressure, refuting the claim that atrial pressures never become
negative. -/
theorem C4_atrial_negative_counterexample :
    (0:ℝ) ≤ 0 ∧ 0 + (leftAtriumHM 1 1 0 0 (-10) 0).1 * 1 < 0 := by
  constructor
  · exact le_refl 0
  · norm_num [leftAtriumHM]

/-- C4 amended: the ventricular pressure functions clamp both returned
values at zero (`max(·, 0)`), so they are non-negative for every volume,
activation and outflow input; the atrial pressure ODEs, however, apply no
clamp, and an explicit-Euler update from a non-negative atrial pressure can
produce a negative one (both for the left and the right atrium). -/
theorem C4_pressure_clamp (vm : VentricleModel)
    (Emax Vu E_plus E_minus V0 P_vb P0 ke kr V E Fout : ℝ) :
    0 ≤ (ventriclePressureHM vm Emax Vu E_plus E_minus V0 P_vb P0 ke kr V E
      Fout).1 ∧
    0 ≤ (ventriclePressureHM vm Emax Vu E_plus E_minus V0 P_vb P0 ke kr V E
      Fout).2 ∧
    (∃ Rpv Cla Vu_la LAP Ppv Fmv dt : ℝ,
      0 ≤ LAP ∧ LAP + (leftAtriumHM Rpv Cla Vu_la LAP Ppv Fmv).1 * dt < 0) ∧
    (∃ Rsv Rev Cra Vu_ra RAP Psv Pev Ftv dt : ℝ,
      0 ≤ RAP ∧
        RAP + (rightAtriumHM Rsv Rev Cra Vu_ra RAP Psv Pev Ftv).1 * dt < 0)
    := by
  refine ⟨le_max_right _ 0, le_max_right _ 0, ?_, ?_⟩
  · exact ⟨1, 1, 0, 0, -10, 0, 1, le_refl 0, by norm_num [leftAtriumHM]⟩
  · exact ⟨1, 1, 1, 0, 0, -10, -10, 0, 1, le_refl 0,
      by norm_num [rightAtriumHM]⟩

/-! ## Claim C5: the dPmus rate is a finite difference, not the analytic
derivative -/

/-- C5 counterexample: with `minP = 1`, `Ti = Te = 1` the inspiratory
branch has exact derivative `0` at phase time `b = 1`, but `musP` called
with `dt = 1`, `Pmus_prev = 0` returns `dPmus = 1`: the returned rate is
not the closed-form derivative of the active branch. -/
theorem C5_finite_difference_counterexample :
    HasDerivAt (fun u : ℝ => pmusInsp 1 2 1 1 u) 0 1 ∧
    (musP 1 1 1 1 1 0).dPmus = 1 ∧ (1:ℝ) ≠ 0 := by
  refine ⟨?_, ?_, one_ne_zero⟩
  · have hfun : (fun u : ℝ => pmusInsp 1 2 1 1 u) =
        fun u : ℝ => -(u ^ 2) + 2 * u := by
      funext u; unfold pmusInsp; ring
    rw [hfun]
    have h1 : HasDerivAt (fun u : ℝ => u ^ 2) 2 1 := by
      simpa using hasDerivAt_pow 2 (1:ℝ)
    have h3 : HasDerivAt (fun u : ℝ => 2 * u) 2 1 := by
      simpa using (hasDerivAt_id (1:ℝ)).const_mul (2:ℝ)
    simpa using h1.neg.add h3
  · norm_num [musP, pmusInsp]

/-- C5 amended: `dPmus` is the first-order backward finite difference
`(Pmus(b) - Pmus_prev)/dt` of the waveform, not its closed-form
derivative: on the inspiratory branch, when `Pmus_prev` is the waveform
value one step earlier, the returned rate equals the exact derivative of
the branch plus the discretisation error `minP·dt/(Ti·Te)`, which is
nonzero whenever `minP·dt ≠ 0`. -/
theorem C5_dPmus_is_finite_difference (minP Ti Te dt prev b : ℝ)
    (hdt : dt ≠ 0) (hTi : Ti ≠ 0) (hTe : Te ≠ 0) :
    HasDerivAt (fun u : ℝ => pmusInsp minP (Ti + Te) Ti Te u)
      ((minP * (Ti + Te) - 2 * minP * b) / (Ti * Te)) b ∧
    (musP minP b Ti Te dt prev).dPmus =
      ((musP minP b Ti Te dt prev).Pmus - prev) / dt ∧
    (b ≤ Ti → prev = pmusInsp minP (Ti + Te) Ti Te (b - dt) →
      (musP minP b Ti Te dt prev).dPmus =
        (minP * (Ti + Te) - 2 * minP * b) / (Ti * Te) +
          minP * dt / (Ti * Te)) := by
  refine ⟨?_, rfl, ?_⟩
  · have hfun : (fun u : ℝ => pmusInsp minP (Ti + Te) Ti Te u) =
        fun u : ℝ => ((-minP) * u ^ 2 + minP * (Ti + Te) * u) / (Ti * Te) :=
      rfl
    rw [hfun]
    have hp : HasDerivAt (fun u : ℝ => u ^ 2) (2 * b) b := by
      simpa using hasDerivAt_pow 2 b
    have hl : HasDerivAt (fun u : ℝ => minP * (Ti + Te) * u)
        (minP * (Ti + Te)) b := by
      simpa using (hasDerivAt_id b).const_mul (minP * (Ti + Te))
    have h := ((hp.const_mul (-minP)).add hl).div_const (Ti * Te)
    convert h using 1
    ring
  · intro hb hprev
    have hmus : (musP minP b Ti Te dt prev).Pmus =
        pmusInsp minP (Ti + Te) Ti Te b := by
      simp only [musP, if_pos hb]
    have : (musP minP b Ti Te dt prev).dPmus =
        ((musP minP b Ti Te dt prev).Pmus - prev) / dt := rfl
    rw [this, hmus, hprev]
    unfold pmusInsp
    field_simp
    ring

/-- Witness for the amended C5 at `minP = 1`, `Ti = Te = 1`, `dt = 1/2`,
`b = 1`, with `Pmus_prev` the inspiratory waveform value at `b - dt`. -/
theorem C5_dPmus_is_finite_difference_witness :
    HasDerivAt (fun u : ℝ => pmusInsp 1 (1 + 1) 1 1 u)
      ((1 * (1 + 1) - 2 * 1 * 1) / (1 * 1)) 1 ∧
    (musP 1 1 1 1 (1/2) (pmusInsp 1 (1 + 1) 1 1 (1 - 1/2))).dPmus =
      ((musP 1 1 1 1 (1/2) (pmusInsp 1 (1 + 1) 1 1 (1 - 1/2))).Pmus -
        pmusInsp 1 (1 + 1) 1 1 (1 - 1/2)) / (1/2) ∧
    ((1:ℝ) ≤ 1 →
      pmusInsp 1 (1 + 1) 1 1 (1 - 1/2) = pmusInsp 1 (1 + 1) 1 1 (1 - 1/2) →
      (musP 1 1 1 1 (1/2) (pmusInsp 1 (1 + 1) 1 1 (1 - 1/2))).dPmus =
        (1 * (1 + 1) - 2 * 1 * 1) / (1 * 1) + 1 * (1/2) / (1 * 1)) :=
  C5_dPmus_is_finite_difference 1 1 1 (1/2)
    (pmusInsp 1 (1 + 1) 1 1 (1 - 1/2)) 1 (by norm_num) (by norm_num)
    (by norm_num)

/-! ## Claim C6: activation range and normalization -/

/-- C6 counterexample: with `α = [1, 1]`, `n = [2, 4]` (positive entries),
the double-Hill product at the in-cycle phase fraction `x = 9/10` strictly
exceeds the normalizing constant (the value at `x_max = sqrt(α₁·α₂) = 1`),
so the normalizing constant used is not the true maximum of the
double-Hill product over the cycle. -/
theorem C6_normalizer_counterexample :
    hillZmax 1 1 2 4 < hillZ 1 1 2 4 (9 / 10) ∧
    (0:ℝ) ≤ 9 / 10 ∧ (9:ℝ) / 10 < 1 := by
  have h2 : ((9:ℝ) / 10) ^ (2:ℝ) = ((9:ℝ) / 10) ^ (2:ℕ) := by
    rw [show ((2:ℝ)) = ((2:ℕ) : ℝ) by norm_num, Real.rpow_natCast]
  have h4 : ((9:ℝ) / 10) ^ (4:ℝ) = ((9:ℝ) / 10) ^ (4:ℕ) := by
    rw [show ((4:ℝ)) = ((4:ℕ) : ℝ) by norm_num, Real.rpow_natCast]
  refine ⟨?_, by norm_num, by norm_num⟩
  unfold hillZmax hillZ
  rw [one_mul, Real.sqrt_one]
  simp only [div_one]
  rw [Real.one_rpow, Real.one_rpow, h2, h4]
  norm_num

/-- C6 amended: for all inputs (with `HR > 0` and positive shape
parameters) the clamped activation `φ` lies in `[0, 1]`; and whenever the
normalization point `x_max = sqrt(α₁·α₂)` falls inside the cycle and the
normalizing constant is positive, `φ` attains the value `1` at
`t = Tc·x_max`.  The normalizing constant is the double-Hill value at
`x_max`, which is not in general the maximum of the product over the
cycle. -/
theorem C6_phi_clamped (HR t a1 a2 n1 n2 : ℝ) (hHR : 0 < HR) (ha1 : 0 < a1)
    (ha2 : 0 < a2) (hx : Real.sqrt (a1 * a2) < 1)
    (hz : 0 < hillZmax a1 a2 n1 n2) :
    (0 ≤ phiHM HR t a1 a2 n1 n2 ∧ phiHM HR t a1 a2 n1 n2 ≤ 1) ∧
    phiHM HR (60 / HR * Real.sqrt (a1 * a2)) a1 a2 n1 n2 = 1 := by
  constructor
  · unfold phiHM
    dsimp only
    split_ifs
    · exact ⟨le_refl 0, zero_le_one⟩
    · exact ⟨le_min (le_max_right _ _) zero_le_one, min_le_right _ _⟩
  · have hTc : (0:ℝ) < 60 / HR := by positivity
    have hs0 : 0 ≤ Real.sqrt (a1 * a2) := Real.sqrt_nonneg _
    have hdiv : 60 / HR * Real.sqrt (a1 * a2) / (60 / HR) =
        Real.sqrt (a1 * a2) := mul_div_cancel_left₀ _ hTc.ne'
    have hfs : ⌊Real.sqrt (a1 * a2)⌋ = 0 :=
      Int.floor_eq_zero_iff.mpr ⟨hs0, hx⟩
    have hcond : ¬ (a1 ≤ 0 ∨ a2 ≤ 0) := by
      push_neg
      exact ⟨ha1, ha2⟩
    unfold phiHM
    dsimp only
    rw [hdiv, hfs, if_neg hcond]
    norm_num [hdiv]
    have hzz : hillZ a1 a2 n1 n2 (Real.sqrt (a1 * a2)) =
        hillZmax a1 a2 n1 n2 := rfl
    rw [hzz, if_pos hz, div_self hz.ne']

/-- Witness for the amended C6 at `HR = 60`, `α = [1/4, 1]`,
`n = [1, 1]`, `t = 0`. -/
theorem C6_phi_clamped_witness :
    (0 ≤ phiHM 60 0 (1/4) 1 1 1 ∧ phiHM 60 0 (1/4) 1 1 1 ≤ 1) ∧
    phiHM 60 (60 / 60 * Real.sqrt (1/4 * 1)) (1/4) 1 1 1 = 1 := by
  have hsq : Real.sqrt ((1:ℝ)/4 * 1) = 1/2 := by
    rw [show ((1:ℝ)/4 * 1) = (1/2)^2 by norm_num,
      Real.sqrt_sq (by norm_num : (0:ℝ) ≤ 1/2)]
  refine C6_phi_clamped 60 0 (1/4) 1 1 1 (by norm_num) (by norm_num)
    (by norm_num) (by rw [hsq]; norm_num) ?_
  unfold hillZmax hillZ
  rw [hsq]
  rw [show ((1:ℝ)/2) / (1/4) = 2 by norm_num, show ((1:ℝ)/2) / 1 = 1/2 by
    norm_num]
  rw [Real.rpow_one, Real.rpow_one]
  norm_num

/-! ## Claim C7: delay-line behaviour -/

/-- Invariant of the delay line driven from the empty buffer: the call
appending sample `f k` returns `f (k - min k N)` (so `f (k - N)` once full,
`f 0` during startup), and afterwards the buffer holds exactly the window
of the last `min (k+1) N` samples. -/
lemma runDelay_spec (f : ℕ → ℚ) (N k : ℕ) :
    (runDelay f N k).1 = f (k - min k N) ∧
    (runDelay f N k).2 =
      (List.range' (k + 1 - min (k + 1) N) (min (k + 1) N)).map f := by
  induction k with
  | zero =>
      rcases Nat.eq_zero_or_pos N with hN | hN
      · subst hN
        constructor
        · simp [runDelay, applyDelay]
        · simp [runDelay, applyDelay]
      · have h1 : min 1 N = 1 := Nat.min_eq_left hN
        have hnot : ¬ N < (([] : List ℚ) ++ [f 0]).length := by
          simp
          omega
        constructor
        · simp [runDelay, applyDelay, hnot, hN.ne']
        · simp [runDelay, applyDelay, hnot, h1, hN.ne']
  | succ k ih =>
      obtain ⟨_, ih2⟩ := ih
      have hm : min (k + 1) N ≤ k + 1 := Nat.min_le_left _ _
      have hstep : runDelay f N (k + 1) =
          applyDelay (f (k + 1))
            ((List.range' (k + 1 - min (k + 1) N) (min (k + 1) N)).map f)
            N := by
        rw [runDelay, ih2]
      have hbuf : (List.range' (k + 1 - min (k + 1) N)
            (min (k + 1) N)).map f ++ [f (k + 1)] =
          (List.range' (k + 1 - min (k + 1) N) (min (k + 1) N + 1)).map f :=
        by
        rw [List.range'_1_concat, List.map_append, Nat.sub_add_cancel hm]
        rfl
      rcases Nat.lt_or_ge (k + 1) N with h | h
      · -- buffer not yet full: no pop, earliest sample returned
        have hmin1 : min (k + 1) N = k + 1 := Nat.min_eq_left (Nat.le_of_lt h)
        have hmin2 : min (k + 2) N = k + 2 := Nat.min_eq_left h
        have hnot : ¬ N < ((List.range' (k + 1 - min (k + 1) N)
            (min (k + 1) N)).map f ++ [f (k + 1)]).length := by
          rw [hbuf]
          simp only [List.length_map, List.length_range']
          omega
        rw [hstep]
        unfold applyDelay
        rw [if_neg hnot, hbuf]
        simp only [hmin1, hmin2, Nat.sub_self]
        constructor
        · rw [List.range'_succ, List.map_cons, List.headD_cons]
        · trivial
      · -- buffer full: oldest sample popped and returned
        have hmin1 : min (k + 1) N = N := Nat.min_eq_right h
        have hmin2 : min (k + 2) N = N := Nat.min_eq_right (Nat.le_succ_of_le h)
        have hpop : N < ((List.range' (k + 1 - min (k + 1) N)
            (min (k + 1) N)).map f ++ [f (k + 1)]).length := by
          rw [hbuf]
          simp only [List.length_map, List.length_range']
          omega
        rw [hstep]
        unfold applyDelay
        rw [if_pos hpop, hbuf]
        simp only [hmin1, hmin2]
        rw [List.range'_succ, List.map_cons]
        constructor
        · rw [List.headD_cons]
        · rw [List.tail_cons]
          have harith : k + 1 - N + 1 = k + 2 - N := by omega
          rw [harith]

/-- C7: for a delay line with `D ≥ 0`, `dt > 0` and
`N = int(D/dt) = ⌊D/dt⌋` buffered steps, driven from the empty buffer by
the sample stream `f`: once the buffer holds more than `N` samples
(call index `k ≥ N`) the returned value is the sample appended `N` steps
earlier, `f (k - N)`, and the oldest sample is removed (the buffer length
stays `min (k+1) N`); while the buffer is not yet full (`k < N`) the
earliest available sample `f 0` is returned. -/
theorem C7_delay_line (D dt : ℚ) (f : ℕ → ℚ) (N k : ℕ) (hD : 0 ≤ D)
    (hdt : 0 < dt) (hN : (N : ℤ) = pyInt (D / dt)) :
    (N : ℤ) = ⌊D / dt⌋ ∧
    (N ≤ k → (runDelay f N k).1 = f (k - N)) ∧
    (k < N → (runDelay f N k).1 = f 0) ∧
    (runDelay f N k).2.length = min (k + 1) N := by
  obtain ⟨h1, h2⟩ := runDelay_spec f N k
  have hdd : (0:ℚ) ≤ D / dt := div_nonneg hD hdt.le
  refine ⟨?_, ?_, ?_, ?_⟩
  · rw [hN]
    unfold pyInt
    rw [if_pos hdd]
  · intro hk
    rw [h1, Nat.min_eq_right hk]
  · intro hk
    rw [h1, Nat.min_eq_left (Nat.le_of_lt hk), Nat.sub_self]
  · rw [h2]
    simp

/-- Witness for C7 at `D = 1`, `dt = 1/2` (so `N = 2`), the identity
sample stream, call index `k = 5`. -/
theorem C7_delay_line_witness :
    ((2:ℕ) : ℤ) = ⌊(1:ℚ) / (1/2)⌋ ∧
    (2 ≤ 5 → (runDelay (fun i => (i:ℚ)) 2 5).1 = ((5 - 2 : ℕ) : ℚ)) ∧
    (5 < 2 → (runDelay (fun i => (i:ℚ)) 2 5).1 = ((0:ℕ) : ℚ)) ∧
    (runDelay (fun i => (i:ℚ)) 2 5).2.length = min (5 + 1) 2 :=
  C7_delay_line 1 (1/2) (fun i => (i:ℚ)) 2 5 (by norm_num) (by norm_num)
    (by norm_num [pyInt])

/-! ## Claims C9 and C10: the simulation entry point -/

/-- Positivity of the time-grid length for positive duration and step. -/
lemma arangeLen_pos (duration dt : ℝ) (hdur : 0 < duration) (hdt : 0 < dt) :
    0 < arangeLen duration dt := by
  unfold arangeLen
  have h : 0 < ⌈duration / dt⌉ := Int.ceil_pos.mpr (div_pos hdur hdt)
  omega

/-- Element 0 of a mapped range with a positive length. -/
lemma getD_map_range (g : ℕ → ℝ) (n : ℕ) (hn : 0 < n) :
    ((List.range n).map g).getD 0 0 = g 0 := by
  obtain ⟨m, rfl⟩ : ∃ m, n = m + 1 :=
    ⟨n - 1, by omega⟩
  rw [List.range_succ_eq_map, List.map_cons, List.getD_cons_zero]

/-- C9: the simulation entry point is a pure function of its arguments:
the call leaves the `params` and `state` objects exactly as passed (the
loop writes only into the local results arrays), and two calls with equal
arguments return equal results dictionaries — no state is carried across
calls. -/
theorem C9_simulate_pure (p p2 : CVParams) (s s2 : CVState)
    (HR duration dt e1 e2 e3 e4 : ℝ) (hp : p2 = p) (hs : s2 = s) :
    (simulate_call p s HR duration dt e1 e2 e3 e4).2.1 = p ∧
    (simulate_call p s HR duration dt e1 e2 e3 e4).2.2 = s ∧
    simulate_cardiovascular_system p2 s2 HR duration dt e1 e2 e3 e4 =
      simulate_cardiovascular_system p s HR duration dt e1 e2 e3 e4 := by
  subst hp
  subst hs
  exact ⟨rfl, rfl, rfl⟩

/-- Witness for C9 at the default parameters and state. -/
theorem C9_simulate_pure_witness :
    (simulate_call cvParamsDefault cvStateDefault 75 16 0.0001 2.7 0.06 1.6
      0.08).2.1 = cvParamsDefault ∧
    (simulate_call cvParamsDefault cvStateDefault 75 16 0.0001 2.7 0.06 1.6
      0.08).2.2 = cvStateDefault ∧
    simulate_cardiovascular_system cvParamsDefault cvStateDefault 75 16
      0.0001 2.7 0.06 1.6 0.08 =
      simulate_cardiovascular_system cvParamsDefault cvStateDefault 75 16
        0.0001 2.7 0.06 1.6 0.08 :=
  C9_simulate_pure cvParamsDefault cvParamsDefault cvStateDefault
    cvStateDefault 75 16 0.0001 2.7 0.06 1.6 0.08 rfl rfl

/-- C10: for every `duration > 0` and `dt > 0`, each of the twenty arrays
in the returned dictionary has the length of the `arange(0, duration, dt)`
grid, and each of the seventeen state-carried keys has the corresponding
field of the initial state at index 0. -/
theorem C10_result_shape (p : CVParams) (s : CVState)
    (HR duration dt e1 e2 e3 e4 : ℝ) (r : CVResults)
    (hdur : 0 < duration) (hdt : 0 < dt)
    (hr : r = simulate_cardiovascular_system p s HR duration dt e1 e2 e3
      e4) :
    (r.time.length = arangeLen duration dt ∧
     r.LAP.length = r.time.length ∧ r.RAP.length = r.time.length ∧
     r.LVV.length = r.time.length ∧ r.LVP.length = r.time.length ∧
     r.RVV.length = r.time.length ∧ r.RVP.length = r.time.length ∧
     r.Psa.length = r.time.length ∧ r.Plbp.length = r.time.length ∧
     r.Plbv.length = r.time.length ∧ r.Pubv.length = r.time.length ∧
     r.Ppa.length = r.time.length ∧ r.Ppp.length = r.time.length ∧
     r.Ppv.length = r.time.length ∧ r.Qmv.length = r.time.length ∧
     r.Qaov.length = r.time.length ∧ r.Qtv.length = r.time.length ∧
     r.Qpulv.length = r.time.length ∧ r.Vu.length = r.time.length ∧
     r.Vlbv.length = r.time.length) ∧
    (r.LAP.getD 0 0 = s.LAP ∧ r.RAP.getD 0 0 = s.RAP ∧
     r.LVV.getD 0 0 = s.LVV ∧ r.LVP.getD 0 0 = s.LVP ∧
     r.RVV.getD 0 0 = s.RVV ∧ r.RVP.getD 0 0 = s.RVP ∧
     r.Psa.getD 0 0 = s.Psa ∧ r.Plbp.getD 0 0 = s.Plbp ∧
     r.Plbv.getD 0 0 = s.Plbv ∧ r.Pubv.getD 0 0 = s.Pubv ∧
     r.Ppa.getD 0 0 = s.Ppa ∧ r.Ppp.getD 0 0 = s.Ppp ∧
     r.Ppv.getD 0 0 = s.Ppv ∧ r.Qmv.getD 0 0 = s.Qmv ∧
     r.Qaov.getD 0 0 = s.Qaov ∧ r.Qtv.getD 0 0 = s.Qtv ∧
     r.Qpulv.getD 0 0 = s.Qpulv) := by
  subst hr
  have hn : 0 < arangeLen duration dt := arangeLen_pos duration dt hdur hdt
  constructor
  · dsimp only [simulate_cardiovascular_system]
    simp only [List.length_map, List.length_range]
    simp
  · dsimp only [simulate_cardiovascular_system]
    simp only [getD_map_range _ _ hn, cvTraj, initRow]
    simp

/-- Witness for C10 at the default parameters and state, `duration = 16`,
`dt = 0.0001`. -/
theorem C10_result_shape_witness :
    ((simulate_cardiovascular_system cvParamsDefault cvStateDefault 75 16
        0.0001 2.7 0.06 1.6 0.08).time.length = arangeLen 16 0.0001 ∧
     (simulate_cardiovascular_system cvParamsDefault cvStateDefault 75 16
        0.0001 2.7 0.06 1.6 0.08).LAP.length =
       (simulate_cardiovascular_system cvParamsDefault cvStateDefault 75 16
        0.0001 2.7 0.06 1.6 0.08).time.length ∧
     (simulate_cardiovascular_system cvParamsDefault cvStateDefault 75 16
        0.0001 2.7 0.06 1.6 0.08).RAP.length =
       (simulate_cardiovascular_system cvParamsDefault cvStateDefault 75 16
        0.0001 2.7 0.06 1.6 0.08).time.length ∧
     (simulate_cardiovascular_system cvParamsDefault cvStateDefault 75 16
        0.0001 2.7 0.06 1.6 0.08).LVV.length =
       (simulate_cardiovascular_system cvParamsDefault cvStateDefault 75 16
        0.0001 2.7 0.06 1.6 0.08).time.length ∧
     (simulate_cardiovascular_system cvParamsDefault cvStateDefault 75 16
        0.0001 2.7 0.06 1.6 0.08).LVP.length =
       (simulate_cardiovascular_system cvParamsDefault cvStateDefault 75 16
        0.0001 2.7 0.06 1.6 0.08).time.length ∧
     (simulate_cardiovascular_system cvParamsDefault cvStateDefault 75 16
        0.0001 2.7 0.06 1.6 0.08).RVV.length =
       (simulate_cardiovascular_system cvParamsDefault cvStateDefault 75 16
        0.0001 2.7 0.06 1.6 0.08).time.length ∧
     (simulate_cardiovascular_system cvParamsDefault cvStateDefault 75 16
        0.0001 2.7 0.06 1.6 0.08).RVP.length =
       (simulate_cardiovascular_system cvParamsDefault cvStateDefault 75 16
        0.0001 2.7 0.06 1.6 0.08).time.length ∧
     (simulate_cardiovascular_system cvParamsDefault cvStateDefault 75 16
        0.0001 2.7 0.06 1.6 0.08).Psa.length =
       (simulate_cardiovascular_system cvParamsDefault cvStateDefault 75 16
        0.0001 2.7 0.06 1.6 0.08).time.length ∧
     (simulate_cardiovascular_system cvParamsDefault cvStateDefault 75 16
        0.0001 2.7 0.06 1.6 0.08).Plbp.length =
       (simulate_cardiovascular_system cvParamsDefault cvStateDefault 75 16
        0.0001 2.7 0.06 1.6 0.08).time.length ∧
     (simulate_cardiovascular_system cvParamsDefault cvStateDefault 75 16
        0.0001 2.7 0.06 1.6 0.08).Plbv.length =
       (simulate_cardiovascular_system cvParamsDefault cvStateDefault 75 16
        0.0001 2.7 0.06 1.6 0.08).time.length ∧
     (simulate_cardiovascular_system cvParamsDefault cvStateDefault 75 16
        0.0001 2.7 0.06 1.6 0.08).Pubv.length =
       (simulate_cardiovascular_system cvParamsDefault cvStateDefault 75 16
        0.0001 2.7 0.06 1.6 0.08).time.length ∧
     (simulate_cardiovascular_system cvParamsDefault cvStateDefault 75 16
        0.0001 2.7 0.06 1.6 0.08).Ppa.length =
       (simulate_cardiovascular_system cvParamsDefault cvStateDefault 75 16
        0.0001 2.7 0.06 1.6 0.08).time.length ∧
     (simulate_cardiovascular_system cvParamsDefault cvStateDefault 75 16
        0.0001 2.7 0.06 1.6 0.08).Ppp.length =
       (simulate_cardiovascular_system cvParamsDefault cvStateDefault 75 16
        0.0001 2.7 0.06 1.6 0.08).time.length ∧
     (simulate_cardiovascular_system cvParamsDefault cvStateDefault 75 16
        0.0001 2.7 0.06 1.6 0.08).Ppv.length =
       (simulate_cardiovascular_system cvParamsDefault cvStateDefault 75 16
        0.0001 2.7 0.06 1.6 0.08).time.length ∧
     (simulate_cardiovascular_system cvParamsDefault cvStateDefault 75 16
        0.0001 2.7 0.06 1.6 0.08).Qmv.length =
       (simulate_cardiovascular_system cvParamsDefault cvStateDefault 75 16
        0.0001 2.7 0.06 1.6 0.08).time.length ∧
     (simulate_cardiovascular_system cvParamsDefault cvStateDefault 75 16
        0.0001 2.7 0.06 1.6 0.08).Qaov.length =
       (simulate_cardiovascular_system cvParamsDefault cvStateDefault 75 16
        0.0001 2.7 0.06 1.6 0.08).time.length ∧
     (simulate_cardiovascular_system cvParamsDefault cvStateDefault 75 16
        0.0001 2.7 0.06 1.6 0.08).Qtv.length =
       (simulate_cardiovascular_system cvParamsDefault cvStateDefault 75 16
        0.0001 2.7 0.06 1.6 0.08).time.length ∧
     (simulate_cardiovascular_system cvParamsDefault cvStateDefault 75 16
        0.0001 2.7 0.06 1.6 0.08).Qpulv.length =
       (simulate_cardiovascular_system cvParamsDefault cvStateDefault 75 16
        0.0001 2.7 0.06 1.6 0.08).time.length ∧
     (simulate_cardiovascular_system cvParamsDefault cvStateDefault 75 16
        0.0001 2.7 0.06 1.6 0.08).Vu.length =
       (simulate_cardiovascular_system cvParamsDefault cvStateDefault 75 16
        0.0001 2.7 0.06 1.6 0.08).time.length ∧
     (simulate_cardiovascular_system cvParamsDefault cvStateDefault 75 16
        0.0001 2.7 0.06 1.6 0.08).Vlbv.length =
       (simulate_cardiovascular_system cvParamsDefault cvStateDefault 75 16
        0.0001 2.7 0.06 1.6 0.08).time.length) ∧
    ((simulate_cardiovascular_system cvParamsDefault cvStateDefault 75 16
        0.0001 2.7 0.06 1.6 0.08).LAP.getD 0 0 = cvStateDefault.LAP ∧
     (simulate_cardiovascular_system cvParamsDefault cvStateDefault 75 16
        0.0001 2.7 0.06 1.6 0.08).RAP.getD 0 0 = cvStateDefault.RAP ∧
     (simulate_cardiovascular_system cvParamsDefault cvStateDefault 75 16
        0.0001 2.7 0.06 1.6 0.08).LVV.getD 0 0 = cvStateDefault.LVV ∧
     (simulate_cardiovascular_system cvParamsDefault cvStateDefault 75 16
        0.0001 2.7 0.06 1.6 0.08).LVP.getD 0 0 = cvStateDefault.LVP ∧
     (simulate_cardiovascular_system cvParamsDefault cvStateDefault 75 16
        0.0001 2.7 0.06 1.6 0.08).RVV.getD 0 0 = cvStateDefault.RVV ∧
     (simulate_cardiovascular_system cvParamsDefault cvStateDefault 75 16
        0.0001 2.7 0.06 1.6 0.08).RVP.getD 0 0 = cvStateDefault.RVP ∧
     (simulate_cardiovascular_system cvParamsDefault cvStateDefault 75 16
        0.0001 2.7 0.06 1.6 0.08).Psa.getD 0 0 = cvStateDefault.Psa ∧
     (simulate_cardiovascular_system cvParamsDefault cvStateDefault 75 16
        0.0001 2.7 0.06 1.6 0.08).Plbp.getD 0 0 = cvStateDefault.Plbp ∧
     (simulate_cardiovascular_system cvParamsDefault cvStateDefault 75 16
        0.0001 2.7 0.06 1.6 0.08).Plbv.getD 0 0 = cvStateDefault.Plbv ∧
     (simulate_cardiovascular_system cvParamsDefault cvStateDefault 75 16
        0.0001 2.7 0.06 1.6 0.08).Pubv.getD 0 0 = cvStateDefault.Pubv ∧
     (simulate_cardiovascular_system cvParamsDefault cvStateDefault 75 16
        0.0001 2.7 0.06 1.6 0.08).Ppa.getD 0 0 = cvStateDefault.Ppa ∧
     (simulate_cardiovascular_system cvParamsDefault cvStateDefault 75 16
        0.0001 2.7 0.06 1.6 0.08).Ppp.getD 0 0 = cvStateDefault.Ppp ∧
     (simulate_cardiovascular_system cvParamsDefault cvStateDefault 75 16
        0.0001 2.7 0.06 1.6 0.08).Ppv.getD 0 0 = cvStateDefault.Ppv ∧
     (simulate_cardiovascular_system cvParamsDefault cvStateDefault 75 16
        0.0001 2.7 0.06 1.6 0.08).Qmv.getD 0 0 = cvStateDefault.Qmv ∧
     (simulate_cardiovascular_system cvParamsDefault cvStateDefault 75 16
        0.0001 2.7 0.06 1.6 0.08).Qaov.getD 0 0 = cvStateDefault.Qaov ∧
     (simulate_cardiovascular_system cvParamsDefault cvStateDefault 75 16
        0.0001 2.7 0.06 1.6 0.08).Qtv.getD 0 0 = cvStateDefault.Qtv ∧
     (simulate_cardiovascular_system cvParamsDefault cvStateDefault 75 16
        0.0001 2.7 0.06 1.6 0.08).Qpulv.getD 0 0 = cvStateDefault.Qpulv) :=
  C10_result_shape cvParamsDefault cvStateDefault 75 16 0.0001 2.7 0.06 1.6
    0.08 (simulate_cardiovascular_system cvParamsDefault cvStateDefault 75
      16 0.0001 2.7 0.06 1.6 0.08) (by norm_num) (by norm_num) rfl

/-- Witness for C8 at `f_es_min = 2`, `G = 3`, `x = 2`, `y = 5`, `f = 1`. -/
theorem C8_effector_monotone_witness :
    peripheralResistanceStatic 2 2 3 ≤ peripheralResistanceStatic 5 2 3 ∧
    cardiacContractilityStatic 2 2 3 ≤ cardiacContractilityStatic 5 2 3 ∧
    venousVolumeStatic 5 2 3 ≤ venousVolumeStatic 2 2 3 ∧
    peripheralResistanceStatic 1 2 3 = 0 ∧
    cardiacContractilityStatic 1 2 3 = 0 ∧
    venousVolumeStatic 1 2 3 = 0 :=
  C8_effector_monotone 2 3 2 5 1 (by norm_num) (by norm_num) (by norm_num)
    (by norm_num)

end CPModel
